import Mathlib

/-!
Shallow embedding of the SuperTickets.AI classification-and-orchestration
pipeline, translated from:
  - mcp_service/services/ai_email_processor.py   (rule-variant classifier)
  - mcp_service/services/bedrock_ai_processor.py (AI-inference variant)
  - mcp_service/services/email_automation_service.py (automation loop)
  - mcp_service/utils/embedding_search.py        (knowledge matcher)

Python strings are modelled as Lean `String` / `List Char`; Python floats
are modelled as `ℚ`; fallible steps are modelled by `Option` results or by
explicit success flags supplied through an environment record standing for
the external collaborators.
-/

/-- Python `needle in haystack` prefix test on character lists. -/
def isPrefixCh : List Char → List Char → Bool
  | [], _ => true
  | _ :: _, [] => false
  | a :: as, b :: bs => a == b && isPrefixCh as bs

/-- Python substring containment `needle in haystack` on character lists. -/
def containsSub (needle : List Char) : List Char → Bool
  | [] => isPrefixCh needle []
  | c :: rest => isPrefixCh needle (c :: rest) || containsSub needle rest

/-- Python `str.lower()` (inputs here are ASCII, where `Char.toLower` agrees). -/
def pyLower (s : String) : String := String.mk (s.data.map Char.toLower)

/-- Python `needle in text` on strings, after the caller already lowercased. -/
def containsStr (needle text : String) : Bool := containsSub needle.data text.data

/-- Email analysis result (dataclass `EmailAnalysis`; the bedrock variant adds
`reasoning`, the rule variant leaves it empty). -/
structure EmailAnalysis where
  category : String
  priority : String
  sentiment : String
  intent : String
  confidence : ℚ
  keywords : List String
  requires_human : Bool
  suggested_response : Option String := none
  ticket_needed : Bool := false
  reasoning : String := ""
deriving DecidableEq, Repr

/-- `AIEmailProcessor.__init__`: `self.categories`, insertion order preserved. -/
def categoriesTable : List (String × List String) :=
  [("technical", ["error", "bug", "crash", "not working", "broken", "issue", "problem"]),
   ("billing", ["payment", "invoice", "charge", "refund", "subscription", "billing"]),
   ("account", ["login", "password", "access", "account", "profile", "settings"]),
   ("general", ["question", "help", "how to", "information", "support"]),
   ("complaint", ["angry", "frustrated", "terrible", "awful", "disappointed"]),
   ("feature_request", ["feature", "enhancement", "suggestion", "improve", "add"])]

/-- `self.priority_keywords`, insertion order preserved. -/
def priorityKeywordsTable : List (String × List String) :=
  [("high", ["urgent", "critical", "emergency", "asap", "immediately", "down", "outage"]),
   ("medium", ["important", "soon", "needed", "issue", "problem"]),
   ("low", ["question", "when possible", "eventually", "minor"])]

/-- `self.sentiment_keywords`, insertion order preserved. -/
def sentimentKeywordsTable : List (String × List String) :=
  [("positive", ["thank", "great", "excellent", "love", "amazing", "perfect"]),
   ("negative", ["angry", "frustrated", "terrible", "awful", "hate", "worst"]),
   ("neutral", ["question", "help", "information", "please", "need"])]

/-- Keyword hit count: `sum(1 for keyword in keywords if keyword in text)`. -/
def keywordScore (kws : List String) (text : String) : Nat :=
  (kws.filter (fun k => containsStr k text)).length

/-- Python `max(scores, key=scores.get)` over a dict iterated in insertion
order returns the first key attaining the maximum; modelled as a fold in
which only a strictly greater score replaces the current best. -/
def firstArgmax (p : String × Nat) (ps : List (String × Nat)) : String :=
  (ps.foldl (fun best q => if best.2 < q.2 then q else best) p).1

/-- `AIEmailProcessor._categorize_email`. -/
def categorizeEmail (text : String) : String :=
  let scores := categoriesTable.map (fun ckw => (ckw.1, keywordScore ckw.2 text))
  match scores.filter (fun p => 0 < p.2) with
  | [] => "general"
  | p :: ps => firstArgmax p ps

/-- `AIEmailProcessor._determine_priority`. -/
def determinePriority (text : String) : String :=
  match priorityKeywordsTable.find? (fun pkw => pkw.2.any (fun k => containsStr k text)) with
  | some pkw => pkw.1
  | none => "medium"

/-- `AIEmailProcessor._analyze_sentiment`. -/
def analyzeSentiment (text : String) : String :=
  let scores := sentimentKeywordsTable.map (fun skw => (skw.1, keywordScore skw.2 text))
  match scores.filter (fun p => 0 < p.2) with
  | [] => "neutral"
  | p :: ps => firstArgmax p ps

/-- `AIEmailProcessor._determine_intent`. -/
def determineIntent (text : String) (category : String) : String :=
  if ["how", "what", "when", "where", "why", "?"].any (fun w => containsStr w text) then
    "question"
  else if ["fix", "solve", "help", "support"].any (fun w => containsStr w text) then
    "support_request"
  else if ["refund", "cancel", "return"].any (fun w => containsStr w text) then
    "refund_request"
  else if category == "complaint" then
    "complaint"
  else
    "support_request"

/-- Python `\w` word character (ASCII range, as in the inputs considered). -/
def isWordChar (c : Char) : Bool := c.isAlphanum || c == '_'

/-- Helper for `wordRuns`: `acc` holds the current run, reversed. -/
def wordRunsAux : List Char → List Char → List (List Char)
  | [], acc => if acc.isEmpty then [] else [acc.reverse]
  | c :: cs, acc =>
    if isWordChar c then wordRunsAux cs (c :: acc)
    else if acc.isEmpty then wordRunsAux cs []
    else acc.reverse :: wordRunsAux cs []

/-- Maximal runs of word characters, i.e. `re.findall(r'\b\w+\b', text)`. -/
def wordRuns (cs : List Char) : List (List Char) := wordRunsAux cs []

/-- The stop-word set of `AIEmailProcessor._extract_keywords`. -/
def stopWords : List String :=
  ["the", "and", "or", "but", "in", "on", "at", "to", "for", "of", "with", "by",
   "is", "are", "was", "were", "be", "been", "have", "has", "had", "do", "does",
   "did", "will", "would", "could", "should", "may", "might", "can", "cannot",
   "cant", "wont", "dont", "doesnt", "didnt", "havent", "hasnt", "hadnt",
   "isnt", "arent", "wasnt", "werent", "i", "you", "he", "she", "it", "we",
   "they", "me", "him", "her", "us", "them", "my", "your", "his", "its",
   "our", "their", "this", "that", "these", "those", "a", "an"]

/-- `AIEmailProcessor._extract_keywords`: words longer than 3 characters not in
the stop set, deduplicated, first 10.  Python builds the deduplicated list via
`list(set(...))`, whose order is unspecified; modelled as first-occurrence
deduplication (no claim depends on the order). -/
def extractKeywords (text : String) : List String :=
  let words := (wordRuns text.data).map String.mk
  let kws := words.filter (fun w => 3 < w.length && !(stopWords.contains (pyLower w)))
  (kws.eraseDups).take 10

/-- `AIEmailProcessor._calculate_confidence`. -/
def calculateConfidence (category priority sentiment : String) : ℚ :=
  let base : ℚ := 0.7
  let base := if category == "technical" || category == "billing" then base + 0.1
              else if category == "general" then base - 0.1 else base
  let base := if priority == "high" || priority == "low" then base + 0.1 else base
  let base := if sentiment == "positive" || sentiment == "negative" then base + 0.1 else base
  min base 1

/-- `AIEmailProcessor._requires_human_review`. -/
def requiresHumanReview (category priority sentiment : String) (keywords : List String) : Bool :=
  if priority == "high" || sentiment == "negative" then true
  else if category == "complaint" then true
  else if category == "technical" &&
          ["crash", "data", "security", "breach"].any (fun w => keywords.contains w) then true
  else if category == "billing" then true
  else false

/-- `AIEmailProcessor._needs_ticket`. -/
def needsTicket (category priority intent : String) : Bool :=
  if priority == "high" then true
  else if category == "technical" then true
  else if category == "complaint" then true
  else if intent == "support_request" && category != "general" then true
  else false

/-- `AIEmailProcessor.analyze_email`, success path: the body of the `try`
block, every step of which is a total function here. -/
def ruleAnalyzeEmail (emailContent subject _sender : String) : EmailAnalysis :=
  let fullText := pyLower (subject ++ " " ++ emailContent)
  let category := categorizeEmail fullText
  let priority := determinePriority fullText
  let sentiment := analyzeSentiment fullText
  let intent := determineIntent fullText category
  let keywords := extractKeywords fullText
  let confidence := calculateConfidence category priority sentiment
  let requires_human := requiresHumanReview category priority sentiment keywords
  let ticket_needed := needsTicket category priority intent
  { category := category, priority := priority, sentiment := sentiment,
    intent := intent, confidence := confidence, keywords := keywords,
    requires_human := requires_human, ticket_needed := ticket_needed }

/-- The safe default returned by the `except` clause of
`AIEmailProcessor.analyze_email`. -/
def ruleSafeDefault : EmailAnalysis :=
  { category := "general", priority := "medium", sentiment := "neutral",
    intent := "support_request", confidence := 0.5, keywords := [],
    requires_human := true, ticket_needed := true }
/-- JSON values as delivered by `json.loads` on the AI inference output
(nested objects are not read by any accessed field and are left out). -/
inductive JsonVal where
  | str (s : String)
  | num (q : ℚ)
  | bool (b : Bool)
  | null
  | arr (vs : List JsonVal)

/-- A parsed JSON object (`analysis_data` in `_parse_ai_analysis`). -/
def JsonObj : Type := List (String × JsonVal)

/-- Python `analysis_data.get(key)` (returns `None` when absent). -/
def jGet (obj : JsonObj) (k : String) : Option JsonVal :=
  (obj.find? (fun p => p.1 == k)).map Prod.snd

/-- `analysis_data.get(key, default)` read into a string field.  A present
value of a non-string JSON type would be stored verbatim by the Python
dataclass; such ill-typed objects are outside this embedding and map to the
default here. -/
def jGetStr (obj : JsonObj) (k : String) (dflt : String) : String :=
  match jGet obj k with
  | some (JsonVal.str s) => s
  | _ => dflt

/-- `analysis_data.get(key, default)` read into a bool field (same remark on
ill-typed present values as for `jGetStr`). -/
def jGetBool (obj : JsonObj) (k : String) (dflt : Bool) : Bool :=
  match jGet obj k with
  | some (JsonVal.bool b) => b
  | _ => dflt

/-- `analysis_data.get('keywords', [])`, keeping the string entries. -/
def jGetStrList (obj : JsonObj) (k : String) : List String :=
  match jGet obj k with
  | some (JsonVal.arr vs) =>
    vs.filterMap (fun v => match v with | JsonVal.str s => some s | _ => none)
  | _ => []

/-- Python `float(v)`: defined on numbers and booleans, raises otherwise
(numeric strings, which `float` would also accept, are not modelled; no
claim depends on them). -/
def pyFloat : JsonVal → Option ℚ
  | JsonVal.num q => some q
  | JsonVal.bool b => some (if b then 1 else 0)
  | _ => none

/-- `float(analysis_data.get('confidence', 0.7))`; `none` means `float`
raised, which the surrounding `except` turns into the fallback. -/
def confValue (obj : JsonObj) : Option ℚ :=
  match jGet obj "confidence" with
  | none => some 0.7
  | some v => pyFloat v

/-- `BedrockAIProcessor._fallback_analysis`. -/
def fallbackAnalysis : EmailAnalysis :=
  { category := "general", priority := "medium", sentiment := "neutral",
    intent := "support_request", confidence := 0.5, keywords := [],
    requires_human := true, ticket_needed := true,
    reasoning := "Fallback analysis - AI unavailable" }

/-- `BedrockAIProcessor._parse_ai_analysis`, as a function of the JSON
extraction result: `none` stands for "no JSON found in the AI response or
`json.loads` failed", which the `except` clause turns into the fallback.
All field reads mirror the `analysis_data.get` calls of the source; a
`float()` failure on the confidence value also lands in the fallback. -/
def parseAiAnalysis (r : Option JsonObj) : EmailAnalysis :=
  match r with
  | none => fallbackAnalysis
  | some obj =>
    match confValue obj with
    | none => fallbackAnalysis
    | some q =>
      { category := jGetStr obj "category" "general",
        priority := jGetStr obj "priority" "medium",
        sentiment := jGetStr obj "sentiment" "neutral",
        intent := jGetStr obj "intent" "support_request",
        confidence := q,
        keywords := jGetStrList obj "keywords",
        requires_human := jGetBool obj "requires_human" false,
        ticket_needed := jGetBool obj "ticket_needed" true,
        reasoning := jGetStr obj "reasoning" "AI analysis completed" }

/-- A knowledge-store row as consumed by `EmbeddingSearch.search`; only the
keys the post-processing reads (`category`, `similarity_score`) are
modelled, each absent-able as in a Python dict. -/
structure KBResult where
  category : Option String := none
  similarity_score : Option ℚ := none
deriving DecidableEq, Repr

/-- `x.get("similarity_score", 0)`, the sort key. -/
def simKey (r : KBResult) : ℚ := r.similarity_score.getD 0

/-- Insertion step of a descending sort by `simKey` (Python
`results.sort(key=..., reverse=True)`; tie order among equal keys is not
relied on by any claim). -/
def insertDescKB (x : KBResult) : List KBResult → List KBResult
  | [] => [x]
  | y :: ys => if simKey y < simKey x then x :: y :: ys else y :: insertDescKB x ys

/-- Descending sort by `simKey`. -/
def sortSimDesc : List KBResult → List KBResult
  | [] => []
  | x :: xs => insertDescKB x (sortSimDesc xs)

/-- The post-processing of `EmbeddingSearch.search` applied to the rows the
Knowledge Store collaborator returned: optional category post-filter
(Python truthiness: `None` and the empty string mean no filter), then
descending sort by `similarity_score`. -/
def searchPost (results : List KBResult) (categoryFilter : Option String) : List KBResult :=
  let filtered :=
    match categoryFilter with
    | none => results
    | some c => if c == "" then results else results.filter (fun r => r.category == some c)
  sortSimDesc filtered

/-- Python `str.strip()`: drop leading and trailing whitespace. -/
def pyStrip (s : String) : String :=
  String.mk (((s.data.dropWhile Char.isWhitespace).reverse.dropWhile Char.isWhitespace).reverse)

/-- The closing signature of every composed reply. -/
def closingSignature : String := "Best regards,\nSuperTickets.AI Support Team"

/-- `BedrockAIProcessor._format_response`. -/
def formatResponse (aiResponse : String) (analysis : EmailAnalysis) : String :=
  let r := pyStrip aiResponse
  let r := if analysis.ticket_needed then
      r ++ "\n\nA support ticket has been created for your request. You\x27ll receive updates as we work on your issue."
    else r
  r ++ "\n\n" ++ closingSignature

/-- `BedrockAIProcessor._fallback_response`. -/
def fallbackResponse (analysis : EmailAnalysis) : String :=
  "Hello,\n\nThank you for contacting SuperTickets.AI support. We\x27ve received your "
    ++ analysis.category
    ++ " inquiry and our team will review it shortly.\n\n"
    ++ (if analysis.ticket_needed then "A support ticket has been created and " else "")
    ++ "You can expect a response within 24 hours.\n\nIf you have any urgent concerns, please don\x27t hesitate to contact us directly.\n\n"
    ++ closingSignature

/-- Python `ticket_id[:8]`. -/
def pySlice8 (s : String) : String := String.mk (s.data.take 8)

/-- The body actually handed to the Outbox Provider by
`_send_automated_response`: `if ticket_id:` (truthy, so a present empty id
appends nothing) then `response += f"\n\nTicket Reference: #{ticket_id[:8]}"`. -/
def buildSendBody (response : String) (ticketId : Option String) : String :=
  match ticketId with
  | some t =>
    if t == "" then response else response ++ "\n\nTicket Reference: #" ++ pySlice8 t
  | none => response

/-- Characters strictly before the first closing angle bracket, `none` if
there is none. -/
def splitToGt : List Char → Option (List Char)
  | [] => none
  | c :: rest => if c == '>' then some [] else (splitToGt rest).map (fun l => c :: l)

/-- Shortest content of length at least one ending at a closing angle
bracket, as matched by the non-greedy group of `re.search(r'<(.+?)>', s)`. -/
def angleContent : List Char → Option (List Char)
  | [] => none
  | c :: rest => (splitToGt rest).map (fun l => c :: l)

/-- Leftmost `<...>` group content in the sender string. -/
def scanAngle : List Char → Option (List Char)
  | [] => none
  | c :: rest =>
    if c == '<' then
      match angleContent rest with
      | some inner => some inner
      | none => scanAngle rest
    else scanAngle rest

/-- `EmailAutomationService._extract_email_address`. -/
def extractEmailAddress (sender : String) : String :=
  match scanAngle sender.data with
  | some inner => String.mk inner
  | none => if sender.data.contains '@' then pyStrip sender else sender

/-- An inbound message as parsed by `_parse_email_message`. -/
structure Email where
  id : String
  threadId : String
  subject : String
  sender : String
  body : String
deriving DecidableEq, Repr

/-- The `support_interactions` row written by `_log_email_processing`
(fields the claims inspect). -/
structure InteractionRecord where
  interaction_type : String
  email_id : String
  sender_email : String
  subject : String
  category : String
  priority : String
  sentiment : String
  confidence : ℚ
  ticket_created : Bool
  ticket_id : Option String
  requires_human : Bool
deriving DecidableEq, Repr

/-- The `support_interactions` row written by `_log_email_sent`. -/
structure SentRecord where
  interaction_type : String
  recipient_email : String
  subject : String
deriving DecidableEq, Repr

/-- The external collaborators of one automation cycle, made explicit:
each field gives, per message, the behaviour of one external call.
`aiAnalysis` is the JSON object extracted from the AI inference reply
(`none` = missing client, failed call, or unparsable output); `ticketOk`,
`sendOk`, `logSentOk`, `logProcOk` say whether the corresponding
collaborator call succeeds or raises; `aiText` is the raw AI reply text for
response generation (`none` = failed, giving the fallback response). -/
structure Env where
  aiAnalysis : Email → Option JsonObj
  searchKB : Email → List KBResult
  ticketOk : Email → Bool
  newTicketId : Email → String
  aiText : Email → Option String
  sendOk : Email → Bool
  logSentOk : Email → Bool
  logProcOk : Email → Bool

/-- `BedrockAIProcessor.analyze_email` as used by the loop: the parse of the
AI output, with every failure (missing client, raised call, unparsable
output) landing in `fallbackAnalysis` via the `except` clause. -/
def envAnalyze (env : Env) (e : Email) : EmailAnalysis :=
  parseAiAnalysis (env.aiAnalysis e)

/-- `BedrockAIProcessor.generate_response`: AI text formatted by
`_format_response`, or `_fallback_response` when the client is missing or
the call raises. -/
def genResponse (env : Env) (e : Email) (analysis : EmailAnalysis) : String :=
  match env.aiText e with
  | some t => formatResponse t analysis
  | none => fallbackResponse analysis

/-- `EmailAutomationService._create_support_ticket`: returns the fresh id,
or `None` when the Ticketing collaborator raises (the `except` clause logs
and returns `None`). -/
def createSupportTicket (env : Env) (e : Email) : Option String :=
  if env.ticketOk e then some (env.newTicketId e) else none

/-- The row built by `_log_email_processing`. -/
def mkProcRecord (e : Email) (a : EmailAnalysis) (ticketId : Option String) : InteractionRecord :=
  { interaction_type := "email_processed", email_id := e.id,
    sender_email := extractEmailAddress e.sender, subject := e.subject,
    category := a.category, priority := a.priority, sentiment := a.sentiment,
    confidence := a.confidence, ticket_created := ticketId.isSome,
    ticket_id := ticketId, requires_human := a.requires_human }

/-- What one message leaves behind after `_process_single_email`:
`replyText` is the body handed to the Outbox Provider (`none` when no reply
was composed), `delivered` whether that send succeeded, `sentLog`/`procLog`
the audit rows that were appended. -/
structure Outcome where
  analysis : EmailAnalysis
  kbResults : List KBResult
  ticketId : Option String
  replyText : Option String
  delivered : Bool
  sentLog : Option SentRecord
  procLog : Option InteractionRecord
deriving DecidableEq, Repr

/-- `EmailAutomationService._send_automated_response`: builds the body
(ticket reference appended when a ticket id is present), attempts the send;
on success the `email_sent` row is appended (unless that insert itself
raises); on a send failure the exception is caught and logged — it does NOT
propagate, and no `email_sent` row is written. -/
def sendAutomatedResponse (env : Env) (e : Email) (response : String)
    (ticketId : Option String) : Option String × Bool × Option SentRecord :=
  let text := buildSendBody response ticketId
  if env.sendOk e then
    (some text, true,
      if env.logSentOk e then
        some { interaction_type := "email_sent",
               recipient_email := extractEmailAddress e.sender,
               subject := "Re: " ++ e.subject }
      else none)
  else (some text, false, none)

/-- `EmailAutomationService._process_single_email`: analysis, knowledge-base
search, conditional ticket creation, conditional compose-and-send (guard
`if not analysis.requires_human or kb_results:`), then the
`email_processed` audit row.  Every step catches its own collaborator
failures, so on well-formed messages the function always completes. -/
def processSingleEmail (env : Env) (e : Email) : Outcome :=
  let analysis := envAnalyze env e
  let kb := env.searchKB e
  let ticketId := if analysis.ticket_needed then createSupportTicket env e else none
  let sendRes :=
    if !analysis.requires_human || !kb.isEmpty then
      sendAutomatedResponse env e (genResponse env e analysis) ticketId
    else (none, false, none)
  let procLog := if env.logProcOk e then some (mkProcRecord e analysis ticketId) else none
  { analysis := analysis, kbResults := kb, ticketId := ticketId,
    replyText := sendRes.1, delivered := sendRes.2.1, sentLog := sendRes.2.2,
    procLog := procLog }

/-- The per-cycle loop body of `EmailAutomationService._process_new_emails`:
for each fetched message not already in `processed_emails`, run
`_process_single_email` and then add the id to `processed_emails` (the
ProcessedSet, modelled as a duplicate-free list).  Returns the updated set
and the outcome of every message processed this cycle. -/
def processNewEmails (env : Env) : List Email → List String → List String × List (String × Outcome)
  | [], processed => (processed, [])
  | e :: rest, processed =>
    if processed.contains e.id then processNewEmails env rest processed
    else
      let o := processSingleEmail env e
      let res := processNewEmails env rest (processed ++ [e.id])
      (res.1, (e.id, o) :: res.2)

/-- Index of the first occurrence of `pat` as a contiguous run in `s`. -/
def firstIdxOfSub (pat : List Char) : List Char → Option Nat
  | [] => if isPrefixCh pat [] then some 0 else none
  | c :: rest =>
    if isPrefixCh pat (c :: rest) then some 0
    else (firstIdxOfSub pat rest).map Nat.succ

/-- The ticket-reference marker `_send_automated_response` appends. -/
def ticketRefMarker : String := "\n\nTicket Reference: #"

/-- Formalisation of "the reply contains a ticket-reference line placed
before the closing signature": some occurrence of the closing signature
starts strictly after the start of a ticket-reference occurrence. -/
def refBeforeSig (s : List Char) : Bool :=
  match firstIdxOfSub ticketRefMarker.data s with
  | none => false
  | some i => containsSub closingSignature.data (s.drop (i + 1))

/-- The failure cases of `_parse_ai_analysis`: no JSON object could be
extracted from the AI reply (or `json.loads` raised), or `float()` raised
on the confidence value. -/
def parseFailed (r : Option JsonObj) : Prop :=
  r = none ∨ ∃ obj, r = some obj ∧ confValue obj = none

/-- A concrete inbound message (claim C1 instance). -/
def emailC1 : Email :=
  { id := "m1", threadId := "t1", subject := "Login help",
    sender := "Ann Example <ann@example.com>",
    body := "I cannot access my account" }

/-- A concrete collaborator environment in which the reply send fails
(the Outbox raises) while everything else succeeds (claim C1 instance). -/
def envC1 : Env :=
  { aiAnalysis := fun _ => some
      [("category", JsonVal.str "account"), ("priority", JsonVal.str "medium"),
       ("sentiment", JsonVal.str "neutral"), ("confidence", JsonVal.num (mkRat 9 10)),
       ("requires_human", JsonVal.bool false), ("ticket_needed", JsonVal.bool false)],
    searchKB := fun _ => [],
    ticketOk := fun _ => true,
    newTicketId := fun _ => "11112222-3333-4444",
    aiText := fun _ => some "We are looking into your account access.",
    sendOk := fun _ => false,
    logSentOk := fun _ => true,
    logProcOk := fun _ => true }

/-- A concrete inbound message (claim C8 instance). -/
def emailC8 : Email :=
  { id := "m8", threadId := "t8", subject := "Server down",
    sender := "Bob <bob@example.com>", body := "The server crashed" }

/-- A concrete environment in which the Ticketing collaborator raises during
`create_ticket` while analysis demands a ticket and permits an automated
reply (claim C8 instance). -/
def envC8 : Env :=
  { aiAnalysis := fun _ => some
      [("category", JsonVal.str "technical"), ("priority", JsonVal.str "high"),
       ("sentiment", JsonVal.str "negative"), ("confidence", JsonVal.num (mkRat 9 10)),
       ("requires_human", JsonVal.bool false), ("ticket_needed", JsonVal.bool true)],
    searchKB := fun _ => [],
    ticketOk := fun _ => false,
    newTicketId := fun _ => "55556666-7777-8888",
    aiText := fun _ => some "We are on it.",
    sendOk := fun _ => true,
    logSentOk := fun _ => true,
    logProcOk := fun _ => true }

/-- A concrete inbound message (claim C10 instance). -/
def emailC10 : Email :=
  { id := "m10", threadId := "t10", subject := "Complaint",
    sender := "Cat <cat@example.com>", body := "This is terrible" }

/-- A concrete environment in which the analysis requires a human and the
knowledge-base search comes back empty (claim C10 instance). -/
def envC10 : Env :=
  { aiAnalysis := fun _ => none,
    searchKB := fun _ => [],
    ticketOk := fun _ => true,
    newTicketId := fun _ => "9999aaaa-bbbb-cccc",
    aiText := fun _ => none,
    sendOk := fun _ => true,
    logSentOk := fun _ => true,
    logProcOk := fun _ => true }

/-- Concrete knowledge-store rows (claim C7 instance). -/
def kbRowA : KBResult := { category := some "technical", similarity_score := some (mkRat 6 10) }

/-- Concrete knowledge-store row of another category (claim C7 instance). -/
def kbRowB : KBResult := { category := some "billing", similarity_score := some (mkRat 9 10) }

/-- Concrete knowledge-store row with the best technical score (claim C7
instance). -/
def kbRowC : KBResult := { category := some "technical", similarity_score := some (mkRat 8 10) }

/-- A concrete inbound message (claim C9 instance). -/
def emailC9 : Email :=
  { id := "m9", threadId := "t9", subject := "Crash report",
    sender := "Dee <dee@example.com>", body := "The app crashed again" }

/-- A concrete environment in which a ticket is created and a reply is sent,
but the AI response-generation call raises, so the reply is composed by the
`_fallback_response` branch (claim C9 instance). -/
def envC9 : Env :=
  { aiAnalysis := fun _ => some
      [("category", JsonVal.str "technical"), ("priority", JsonVal.str "high"),
       ("sentiment", JsonVal.str "neutral"), ("confidence", JsonVal.num (mkRat 9 10)),
       ("requires_human", JsonVal.bool false), ("ticket_needed", JsonVal.bool true)],
    searchKB := fun _ => [],
    ticketOk := fun _ => true,
    newTicketId := fun _ => "abc123def456",
    aiText := fun _ => none,
    sendOk := fun _ => true,
    logSentOk := fun _ => true,
    logProcOk := fun _ => true }

/-- Claim C2 counterexample: on body "URGENT: production is down" with
subject "System outage", the rule-variant classifier does NOT return
category "technical" — none of the technical keyword-table entries occurs
in the lowercased text, so the category score table is empty and the
default "general" is returned. -/
theorem C2_counterexample :
    ¬ (ruleAnalyzeEmail "URGENT: production is down" "System outage" "ops@example.com").category
      = "technical" := by decide

/-- Claim C2 (amended): for body "URGENT: production is down" and subject
"System outage", the rule-variant classifier returns category "general"
(not "technical"), priority "high", ticket_needed true and requires_human
true. -/
theorem C2_scenarioA :
    (ruleAnalyzeEmail "URGENT: production is down" "System outage" "ops@example.com").category
        = "general" ∧
    (ruleAnalyzeEmail "URGENT: production is down" "System outage" "ops@example.com").priority
        = "high" ∧
    (ruleAnalyzeEmail "URGENT: production is down" "System outage" "ops@example.com").ticket_needed
        = true ∧
    (ruleAnalyzeEmail "URGENT: production is down" "System outage" "ops@example.com").requires_human
        = true := by decide

/-- Claim C6: `analyze` never raises outward — both variants are modelled as
total functions because every failure is caught — and on any parse failure
(no JSON object extracted, or `float()` raising on the confidence) the
result is exactly the fixed fail-safe Analysis with category "general",
priority "medium", sentiment "neutral", confidence 0.5,
requires_human true and ticket_needed true; the rule variant's `except`
default carries the same six field values. -/
theorem C6_fail_safe (r : Option JsonObj) (h : parseFailed r) :
    parseAiAnalysis r = fallbackAnalysis ∧
    fallbackAnalysis.category = "general" ∧
    fallbackAnalysis.priority = "medium" ∧
    fallbackAnalysis.sentiment = "neutral" ∧
    fallbackAnalysis.confidence = 0.5 ∧
    fallbackAnalysis.requires_human = true ∧
    fallbackAnalysis.ticket_needed = true ∧
    ruleSafeDefault.category = "general" ∧
    ruleSafeDefault.priority = "medium" ∧
    ruleSafeDefault.sentiment = "neutral" ∧
    ruleSafeDefault.confidence = 0.5 ∧
    ruleSafeDefault.requires_human = true ∧
    ruleSafeDefault.ticket_needed = true := by
  refine ⟨?_, rfl, rfl, rfl, by norm_num [fallbackAnalysis], rfl, rfl,
    rfl, rfl, rfl, by norm_num [ruleSafeDefault], rfl, rfl⟩
  rcases h with rfl | ⟨obj, rfl, hc⟩
  · rfl
  · simp [parseAiAnalysis, hc]

/-- Claim C6 witness: the fail-safe result at the concrete unparsable input
(`none`, i.e. no JSON object in the AI reply). -/
theorem C6_fail_safe_witness :
    parseAiAnalysis none = fallbackAnalysis ∧
    fallbackAnalysis.category = "general" ∧
    fallbackAnalysis.priority = "medium" ∧
    fallbackAnalysis.sentiment = "neutral" ∧
    fallbackAnalysis.confidence = 0.5 ∧
    fallbackAnalysis.requires_human = true ∧
    fallbackAnalysis.ticket_needed = true ∧
    ruleSafeDefault.category = "general" ∧
    ruleSafeDefault.priority = "medium" ∧
    ruleSafeDefault.sentiment = "neutral" ∧
    ruleSafeDefault.confidence = 0.5 ∧
    ruleSafeDefault.requires_human = true ∧
    ruleSafeDefault.ticket_needed = true :=
  C6_fail_safe none (Or.inl rfl)

/-- The rule variant's confidence formula always lands in [0,1] (in fact in
[0.6, 1]): the base 0.7 is adjusted by at most one −0.1 and at most three
+0.1 steps, then capped at 1. -/
theorem calculateConfidence_mem_unit (category priority sentiment : String) :
    0 ≤ calculateConfidence category priority sentiment ∧
    calculateConfidence category priority sentiment ≤ 1 := by
  unfold calculateConfidence
  constructor
  · refine le_min ?_ zero_le_one
    split_ifs <;> norm_num
  · exact min_le_right _ _

/-- Claim C3 counterexample: the JSON-parse path of the inference variant
copies the AI-supplied confidence unclamped; on the parsable object
`{"confidence": 5}` the returned Analysis has confidence 5, outside
[0, 1]. -/
theorem C3_counterexample :
    (parseAiAnalysis (some [("confidence", JsonVal.num 5)])).confidence = 5 ∧
    ¬ (parseAiAnalysis (some [("confidence", JsonVal.num 5)])).confidence ≤ 1 := by
  constructor
  · rfl
  · intro h
    rw [show (parseAiAnalysis (some [("confidence", JsonVal.num 5)])).confidence = 5 from rfl] at h
    norm_num at h

/-- Claim C3 (amended): the rule variant and the fail-safe always return
confidence in [0,1]; the JSON-parse path returns the AI-supplied value
verbatim, so its confidence lies in [0,1] exactly when the supplied value
does (here: whenever the parsed confidence value is in [0,1]). -/
theorem C3_confidence_bounds (emailContent subject sender : String)
    (obj : JsonObj) (q : ℚ) (hq : confValue obj = some q)
    (h0 : 0 ≤ q) (h1 : q ≤ 1) :
    (0 ≤ (ruleAnalyzeEmail emailContent subject sender).confidence ∧
      (ruleAnalyzeEmail emailContent subject sender).confidence ≤ 1) ∧
    (parseAiAnalysis (some obj)).confidence = q ∧
    (0 ≤ (parseAiAnalysis (some obj)).confidence ∧
      (parseAiAnalysis (some obj)).confidence ≤ 1) ∧
    (0 ≤ fallbackAnalysis.confidence ∧ fallbackAnalysis.confidence ≤ 1) := by
  have hparse : (parseAiAnalysis (some obj)).confidence = q := by
    simp [parseAiAnalysis, hq]
  refine ⟨calculateConfidence_mem_unit _ _ _, hparse, ?_, ?_⟩
  · rw [hparse]; exact ⟨h0, h1⟩
  · norm_num [fallbackAnalysis]

/-- Claim C3 witness: the bounds instantiated at a concrete message and a
concrete parsable AI object with confidence 1/2. -/
theorem C3_confidence_bounds_witness :
    (0 ≤ (ruleAnalyzeEmail "please help" "question" "a@b.c").confidence ∧
      (ruleAnalyzeEmail "please help" "question" "a@b.c").confidence ≤ 1) ∧
    (parseAiAnalysis (some [("confidence", JsonVal.num (1/2))])).confidence = 1/2 ∧
    (0 ≤ (parseAiAnalysis (some [("confidence", JsonVal.num (1/2))])).confidence ∧
      (parseAiAnalysis (some [("confidence", JsonVal.num (1/2))])).confidence ≤ 1) ∧
    (0 ≤ fallbackAnalysis.confidence ∧ fallbackAnalysis.confidence ≤ 1) :=
  C3_confidence_bounds "please help" "question" "a@b.c"
    [("confidence", JsonVal.num (1/2))] (1/2) rfl (by norm_num) (by norm_num)

/-- `_needs_ticket` returns true on high priority and on the technical and
complaint categories. -/
theorem needsTicket_of_cond (category priority intent : String)
    (h : priority = "high" ∨ category = "technical" ∨ category = "complaint") :
    needsTicket category priority intent = true := by
  unfold needsTicket
  rcases h with rfl | rfl | rfl <;> simp

/-- Claim C4 counterexample: the JSON-parse path copies ticket_needed
verbatim from the AI output, so the parsable object
`{"priority": "high", "ticket_needed": false}` yields an Analysis with
priority "high" and ticket_needed false, violating the invariant. -/
theorem C4_counterexample :
    (parseAiAnalysis (some [("priority", JsonVal.str "high"),
        ("ticket_needed", JsonVal.bool false)])).priority = "high" ∧
    (parseAiAnalysis (some [("priority", JsonVal.str "high"),
        ("ticket_needed", JsonVal.bool false)])).ticket_needed = false := by
  exact ⟨rfl, rfl⟩

/-- Claim C4 (amended): the invariant "ticket_needed whenever priority is
high or the category is technical or complaint" holds for every Analysis of
the rule variant and for the fail-safe; the JSON-parse path takes
ticket_needed verbatim from the AI object (default true), so there it holds
only if the AI output respects it. -/
theorem C4_ticket_needed (emailContent subject sender : String)
    (h : (ruleAnalyzeEmail emailContent subject sender).priority = "high" ∨
         (ruleAnalyzeEmail emailContent subject sender).category = "technical" ∨
         (ruleAnalyzeEmail emailContent subject sender).category = "complaint") :
    (ruleAnalyzeEmail emailContent subject sender).ticket_needed = true ∧
    fallbackAnalysis.ticket_needed = true := by
  refine ⟨?_, rfl⟩
  have hT : (ruleAnalyzeEmail emailContent subject sender).ticket_needed =
      needsTicket (ruleAnalyzeEmail emailContent subject sender).category
        (ruleAnalyzeEmail emailContent subject sender).priority
        (ruleAnalyzeEmail emailContent subject sender).intent := rfl
  rw [hT]
  exact needsTicket_of_cond _ _ _ h

/-- Claim C4 witness: instantiated at a concrete high-priority message. -/
theorem C4_ticket_needed_witness :
    (ruleAnalyzeEmail "this is urgent" "please" "a@b.c").ticket_needed = true ∧
    fallbackAnalysis.ticket_needed = true :=
  C4_ticket_needed "this is urgent" "please" "a@b.c" (Or.inl (by decide))

/-- `_requires_human_review` returns true on high priority, negative
sentiment, and the complaint and billing categories. -/
theorem requiresHumanReview_of_cond (category priority sentiment : String)
    (keywords : List String)
    (h : priority = "high" ∨ sentiment = "negative" ∨
         category = "complaint" ∨ category = "billing") :
    requiresHumanReview category priority sentiment keywords = true := by
  unfold requiresHumanReview
  rcases h with rfl | rfl | rfl | rfl <;> split_ifs <;> simp_all

/-- Claim C5 counterexample: the JSON-parse path copies requires_human
verbatim (default false), so the parsable object `{"priority": "high"}`
yields an Analysis with priority "high" and requires_human false, violating
the invariant. -/
theorem C5_counterexample :
    (parseAiAnalysis (some [("priority", JsonVal.str "high")])).priority = "high" ∧
    (parseAiAnalysis (some [("priority", JsonVal.str "high")])).requires_human = false := by
  exact ⟨rfl, rfl⟩

/-- Claim C5 (amended): the invariant "requires_human whenever priority is
high, sentiment is negative, or the category is complaint or billing" holds
for every Analysis of the rule variant and for the fail-safe; the
JSON-parse path takes requires_human verbatim from the AI object (default
false), so there it holds only if the AI output respects it. -/
theorem C5_requires_human (emailContent subject sender : String)
    (h : (ruleAnalyzeEmail emailContent subject sender).priority = "high" ∨
         (ruleAnalyzeEmail emailContent subject sender).sentiment = "negative" ∨
         (ruleAnalyzeEmail emailContent subject sender).category = "complaint" ∨
         (ruleAnalyzeEmail emailContent subject sender).category = "billing") :
    (ruleAnalyzeEmail emailContent subject sender).requires_human = true ∧
    fallbackAnalysis.requires_human = true := by
  refine ⟨?_, rfl⟩
  have hH : (ruleAnalyzeEmail emailContent subject sender).requires_human =
      requiresHumanReview (ruleAnalyzeEmail emailContent subject sender).category
        (ruleAnalyzeEmail emailContent subject sender).priority
        (ruleAnalyzeEmail emailContent subject sender).sentiment
        (ruleAnalyzeEmail emailContent subject sender).keywords := rfl
  rw [hH]
  exact requiresHumanReview_of_cond _ _ _ _ h

/-- Claim C5 witness: instantiated at a concrete message with negative
sentiment. -/
theorem C5_requires_human_witness :
    (ruleAnalyzeEmail "this is terrible and awful" "sad" "a@b.c").requires_human = true ∧
    fallbackAnalysis.requires_human = true :=
  C5_requires_human "this is terrible and awful" "sad" "a@b.c" (Or.inr (Or.inl (by decide)))

/-- Membership is preserved by the descending-insert step. -/
theorem mem_insertDescKB (x b : KBResult) (l : List KBResult) :
    b ∈ insertDescKB x l ↔ b = x ∨ b ∈ l := by
  induction l with
  | nil => simp [insertDescKB]
  | cons y ys ih =>
    unfold insertDescKB
    by_cases h : simKey y < simKey x
    · simp only [if_pos h, List.mem_cons]
    · simp only [if_neg h, List.mem_cons, ih]
      tauto

/-- Membership is preserved by the descending sort. -/
theorem mem_sortSimDesc (b : KBResult) (l : List KBResult) :
    b ∈ sortSimDesc l ↔ b ∈ l := by
  induction l with
  | nil => simp [sortSimDesc]
  | cons y ys ih =>
    unfold sortSimDesc
    rw [mem_insertDescKB, ih, List.mem_cons]

/-- Inserting into a list sorted by non-increasing similarity keeps it
sorted. -/
theorem sorted_insertDescKB (x : KBResult) (l : List KBResult)
    (h : List.Sorted (fun a b => simKey b ≤ simKey a) l) :
    List.Sorted (fun a b => simKey b ≤ simKey a) (insertDescKB x l) := by
  induction l with
  | nil => simp [insertDescKB]
  | cons y ys ih =>
    rw [List.sorted_cons] at h
    obtain ⟨hy, hys⟩ := h
    unfold insertDescKB
    by_cases hlt : simKey y < simKey x
    · rw [if_pos hlt, List.sorted_cons]
      refine ⟨?_, ?_⟩
      · intro b hb
        rcases List.mem_cons.mp hb with rfl | hb'
        · exact le_of_lt hlt
        · exact le_trans (hy b hb') (le_of_lt hlt)
      · rw [List.sorted_cons]
        exact ⟨hy, hys⟩
    · rw [if_neg hlt, List.sorted_cons]
      refine ⟨?_, ih hys⟩
      intro b hb
      rcases (mem_insertDescKB x b ys).mp hb with rfl | hb'
      · exact le_of_not_lt hlt
      · exact hy b hb'

/-- The descending sort really sorts by non-increasing similarity. -/
theorem sorted_sortSimDesc (l : List KBResult) :
    List.Sorted (fun a b => simKey b ≤ simKey a) (sortSimDesc l) := by
  induction l with
  | nil => simp [sortSimDesc]
  | cons y ys ih => exact sorted_insertDescKB y (sortSimDesc ys) ih

/-- Claim C7: the sequence returned by the Knowledge Matcher search is
sorted in non-increasing order of similarity_score, and, when a (truthy)
category filter is given, contains only candidates of that category. -/
theorem C7_search_filter_sorted (results : List KBResult) (filt : Option String) :
    List.Sorted (fun a b => simKey b ≤ simKey a) (searchPost results filt) ∧
    ∀ c, filt = some c → c ≠ "" →
      ∀ r ∈ searchPost results filt, r.category = some c := by
  constructor
  · unfold searchPost
    exact sorted_sortSimDesc _
  · rintro c rfl hc r hr
    have hbeq : (c == "") = false := by
      simpa using hc
    simp only [searchPost, hbeq, Bool.false_eq_true, if_false] at hr
    have hmem := (mem_sortSimDesc r _).mp hr
    have hcat := List.of_mem_filter hmem
    simpa using hcat

/-- Claim C7 witness: at a concrete three-row store result with mixed
categories and scores, the output is sorted and the best technical row is
kept with its category. -/
theorem C7_search_filter_sorted_witness :
    List.Sorted (fun a b => simKey b ≤ simKey a)
      (searchPost [kbRowA, kbRowB, kbRowC] (some "technical")) ∧
    kbRowC.category = some "technical" :=
  ⟨(C7_search_filter_sorted [kbRowA, kbRowB, kbRowC] (some "technical")).1,
   (C7_search_filter_sorted [kbRowA, kbRowB, kbRowC] (some "technical")).2
     "technical" rfl (by decide) kbRowC (by decide)⟩

/-- Ids already in the ProcessedSet stay in it across a cycle. -/
theorem mem_processed_of_processNewEmails (env : Env) (emails : List Email)
    (processed : List String) (x : String) (hx : x ∈ processed) :
    x ∈ (processNewEmails env emails processed).1 := by
  induction emails generalizing processed with
  | nil => simpa [processNewEmails] using hx
  | cons e rest ih =>
    unfold processNewEmails
    by_cases h : processed.contains e.id
    · rw [if_pos h]
      exact ih processed hx
    · rw [if_neg h]
      exact ih (processed ++ [e.id]) (List.mem_append_left _ hx)

/-- Claim C1 counterexample: in the concrete environment `envC1` the Outbox
send raises for every message, so the reply send for `emailC1` fails
(`replyText` was composed and handed to the send, `delivered` is false) —
and yet after the cycle the message id IS in the ProcessedSet, because
`_send_automated_response` catches the failure instead of re-raising. -/
theorem C1_counterexample :
    (processSingleEmail envC1 emailC1).replyText.isSome = true ∧
    (processSingleEmail envC1 emailC1).delivered = false ∧
    (processNewEmails envC1 [emailC1] []).1 = ["m1"] := by
  exact ⟨rfl, rfl, rfl⟩

/-- Claim C1 (amended): a reply-send failure is caught and logged inside
`_send_automated_response` and does not propagate, so the message id IS
added to the ProcessedSet regardless of send success — every fetched
message of the batch ends the cycle in the ProcessedSet, and send failures
are NOT retried on the next cycle. -/
theorem C1_marked_processed (env : Env) (emails : List Email)
    (processed : List String) (e : Email) (he : e ∈ emails) :
    e.id ∈ (processNewEmails env emails processed).1 := by
  induction emails generalizing processed with
  | nil => cases he
  | cons f rest ih =>
    unfold processNewEmails
    rcases List.mem_cons.mp he with rfl | he'
    · by_cases h : processed.contains e.id
      · rw [if_pos h]
        exact mem_processed_of_processNewEmails env rest processed e.id
          (by simpa using h)
      · rw [if_neg h]
        exact mem_processed_of_processNewEmails env rest (processed ++ [e.id]) e.id
          (List.mem_append_right _ (by simp))
    · by_cases h : processed.contains f.id
      · rw [if_pos h]
        exact ih processed he'
      · rw [if_neg h]
        exact ih (processed ++ [f.id]) he'

/-- Claim C1 witness: the amended statement at the send-failing concrete
environment — the id of `emailC1` is in the ProcessedSet after the cycle. -/
theorem C1_marked_processed_witness :
    emailC1.id ∈ (processNewEmails envC1 [emailC1] []).1 :=
  C1_marked_processed envC1 [emailC1] [] emailC1 (by simp)

/-- Claim C8: when the Ticketing collaborator raises during create_ticket
(on a message whose analysis needs a ticket and allows an automated reply),
`_create_support_ticket` returns null, the interaction record is appended
with ticket_created = false, and the reply is still composed and sent; the
failure never propagates — `processSingleEmail` completes normally. -/
theorem C8_ticket_failure (env : Env) (e : Email)
    (hneed : (envAnalyze env e).ticket_needed = true)
    (hfail : env.ticketOk e = false)
    (hreply : (envAnalyze env e).requires_human = false ∨ env.searchKB e ≠ [])
    (hsend : env.sendOk e = true)
    (hlog : env.logProcOk e = true) :
    (processSingleEmail env e).ticketId = none ∧
    (processSingleEmail env e).procLog = some (mkProcRecord e (envAnalyze env e) none) ∧
    (mkProcRecord e (envAnalyze env e) none).ticket_created = false ∧
    (processSingleEmail env e).replyText.isSome = true ∧
    (processSingleEmail env e).delivered = true := by
  have hguard : (!(envAnalyze env e).requires_human || !(env.searchKB e).isEmpty) = true := by
    rcases hreply with h | h
    · simp [h]
    · cases hkb : env.searchKB e with
      | nil => exact absurd hkb h
      | cons y ys => simp [hkb]
  refine ⟨?_, ?_, ?_, ?_, ?_⟩ <;>
    simp [processSingleEmail, createSupportTicket, sendAutomatedResponse, mkProcRecord,
      hneed, hfail, hsend, hlog, hguard]

/-- Claim C8 witness: instantiated at the concrete environment `envC8`
whose Ticketing collaborator raises while analysis demands a ticket. -/
theorem C8_ticket_failure_witness :
    (processSingleEmail envC8 emailC8).ticketId = none ∧
    (processSingleEmail envC8 emailC8).procLog
      = some (mkProcRecord emailC8 (envAnalyze envC8 emailC8) none) ∧
    (mkProcRecord emailC8 (envAnalyze envC8 emailC8) none).ticket_created = false ∧
    (processSingleEmail envC8 emailC8).replyText.isSome = true ∧
    (processSingleEmail envC8 emailC8).delivered = true :=
  C8_ticket_failure envC8 emailC8 rfl rfl (Or.inl rfl) rfl rfl

/-- The send step always hands a composed body to the Outbox when called. -/
theorem sendAutomatedResponse_fst_isSome (env : Env) (e : Email)
    (response : String) (ticketId : Option String) :
    (sendAutomatedResponse env e response ticketId).1.isSome = true := by
  unfold sendAutomatedResponse
  by_cases hs : env.sendOk e <;> simp [hs]

/-- Claim C10: in `_process_single_email` a reply is composed and sent
exactly when the analysis has requires_human false or the knowledge-base
search returned a non-empty list; in particular with requires_human true
and empty knowledge-base results no reply is sent, while the
email_processed interaction record is still appended. -/
theorem C10_reply_gating (env : Env) (e : Email)
    (hlog : env.logProcOk e = true) :
    ((processSingleEmail env e).replyText.isSome =
      (!(envAnalyze env e).requires_human || !(env.searchKB e).isEmpty)) ∧
    ((envAnalyze env e).requires_human = true → env.searchKB e = [] →
      (processSingleEmail env e).replyText = none) ∧
    (processSingleEmail env e).procLog =
      some (mkProcRecord e (envAnalyze env e) (processSingleEmail env e).ticketId) := by
  refine ⟨?_, ?_, ?_⟩
  · by_cases hg : (!(envAnalyze env e).requires_human || !(env.searchKB e).isEmpty) = true
    · rw [hg]
      simp only [processSingleEmail, hg, if_true]
      exact sendAutomatedResponse_fst_isSome env e _ _
    · have hg' : (!(envAnalyze env e).requires_human || !(env.searchKB e).isEmpty) = false :=
        Bool.eq_false_iff.mpr (fun hc => hg hc)
      rw [hg']
      simp [processSingleEmail, hg']
  · intro hr hkb
    have hg' : (!(envAnalyze env e).requires_human || !(env.searchKB e).isEmpty) = false := by
      simp [hr, hkb]
    simp [processSingleEmail, hg']
  · simp [processSingleEmail, hlog]

/-- Claim C10 witness: at the concrete environment `envC10` the fail-safe
analysis requires a human and the knowledge base is empty, so no reply is
sent while the interaction record is appended. -/
theorem C10_reply_gating_witness :
    ((processSingleEmail envC10 emailC10).replyText.isSome =
      (!(envAnalyze envC10 emailC10).requires_human ||
        !(envC10.searchKB emailC10).isEmpty)) ∧
    ((envAnalyze envC10 emailC10).requires_human = true →
      envC10.searchKB emailC10 = [] →
      (processSingleEmail envC10 emailC10).replyText = none) ∧
    (processSingleEmail envC10 emailC10).procLog =
      some (mkProcRecord emailC10 (envAnalyze envC10 emailC10)
        (processSingleEmail envC10 emailC10).ticketId) :=
  C10_reply_gating envC10 emailC10 rfl

set_option maxRecDepth 100000 in
/-- Claim C9 counterexample: for a concrete message with a created ticket
and a sent reply, the sent body contains both the ticket-reference marker
and the closing signature, yet NO occurrence of the closing signature
starts after the ticket-reference marker — the reference line is appended
after the signature, not placed before it. -/
theorem C9_counterexample :
    containsSub ticketRefMarker.data
      (buildSendBody (formatResponse "We will look into it." fallbackAnalysis)
        (some "abc123def456")).data = true ∧
    containsSub closingSignature.data
      (buildSendBody (formatResponse "We will look into it." fallbackAnalysis)
        (some "abc123def456")).data = true ∧
    refBeforeSig
      (buildSendBody (formatResponse "We will look into it." fallbackAnalysis)
        (some "abc123def456")).data = false := by
  exact ⟨by decide, by decide, by decide⟩

/-- Every reply composed by `_format_response` ends with the closing
signature. -/
theorem formatResponse_ends_sig (aiResponse : String) (analysis : EmailAnalysis) :
    ∃ b, formatResponse aiResponse analysis = b ++ closingSignature :=
  ⟨_, rfl⟩

/-- Every reply composed by `_fallback_response` ends with the closing
signature. -/
theorem fallbackResponse_ends_sig (analysis : EmailAnalysis) :
    ∃ b, fallbackResponse analysis = b ++ closingSignature :=
  ⟨_, rfl⟩

/-- Every reply the loop's composer produces — via `_format_response` on AI
text or via the `_fallback_response` branch when the AI response-generation
call raises — ends with the closing signature. -/
theorem genResponse_ends_sig (env : Env) (e : Email) (analysis : EmailAnalysis) :
    ∃ b, genResponse env e analysis = b ++ closingSignature := by
  unfold genResponse
  cases env.aiText e with
  | some t => exact formatResponse_ends_sig t analysis
  | none => exact fallbackResponse_ends_sig analysis

/-- With a (truthy) ticket id present, the sent body is the response
followed by the ticket-reference line. -/
theorem buildSendBody_of_ticket (response : String) (tid : String) (ht : tid ≠ "") :
    buildSendBody response (some tid)
      = response ++ ticketRefMarker ++ pySlice8 tid := by
  have hbeq : (tid == "") = false := by
    simp [ht]
  simp only [buildSendBody, hbeq, Bool.false_eq_true, if_false]
  rfl

/-- When the reply guard holds, the body handed to the Outbox is the
composed response with the computed ticket id appended by
`_send_automated_response`. -/
theorem processSingleEmail_replyText_eq (env : Env) (e : Email)
    (hg : (!(envAnalyze env e).requires_human || !(env.searchKB e).isEmpty) = true) :
    (processSingleEmail env e).replyText
      = some (buildSendBody (genResponse env e (envAnalyze env e))
          ((processSingleEmail env e).ticketId)) := by
  by_cases hs : env.sendOk e <;>
    simp [processSingleEmail, sendAutomatedResponse, hg, hs]

/-- Claim C9 (amended): for every message for which a ticket was created
(its id truthy, as every generated uuid is) and a reply was composed and
sent — through either composer branch — the sent body ends with the
closing signature followed by the ticket-reference line: the reference is
appended AFTER the signature, at the very end of the reply. -/
theorem C9_ref_after_signature (env : Env) (e : Email) (tid : String)
    (hticket : (processSingleEmail env e).ticketId = some tid)
    (ht : tid ≠ "")
    (hreply : (processSingleEmail env e).replyText.isSome = true) :
    ∃ a, (processSingleEmail env e).replyText
      = some (a ++ closingSignature ++ ticketRefMarker ++ pySlice8 tid) := by
  have hg : (!(envAnalyze env e).requires_human || !(env.searchKB e).isEmpty) = true := by
    by_contra hne
    have hg' : (!(envAnalyze env e).requires_human || !(env.searchKB e).isEmpty) = false :=
      Bool.eq_false_iff.mpr hne
    have hnone : (processSingleEmail env e).replyText = none := by
      simp [processSingleEmail, hg']
    rw [hnone] at hreply
    simp at hreply
  obtain ⟨b, hb⟩ := genResponse_ends_sig env e (envAnalyze env e)
  refine ⟨b, ?_⟩
  rw [processSingleEmail_replyText_eq env e hg, hticket, hb,
    buildSendBody_of_ticket (b ++ closingSignature) tid ht]

/-- Claim C9 witness: the amended statement at the concrete environment
`envC9`, in which the ticket is created and the reply is composed by the
fallback branch (the AI response-generation call raises). -/
theorem C9_ref_after_signature_witness :
    ∃ a, (processSingleEmail envC9 emailC9).replyText
      = some (a ++ closingSignature ++ ticketRefMarker ++ pySlice8 "abc123def456") :=
  C9_ref_after_signature envC9 emailC9 "abc123def456" rfl (by decide) rfl
